import Mathlib

/-! Shallow embedding of the `nl` line-numbering filter (src/main.rs) and
verification of its specification.

The program is a streaming line-numbering filter: each input line is either
a section-delimiter line (consumed, producing a blank output line and a
section transition), or an ordinary line that is numbered or not according
to the current section's numbering style, with special grouping of
consecutive blank lines under the `All` style.

Modelling choices:
- Rust `i64` counters are modelled as `Int` (no claim under verification
  involves 64-bit overflow), `usize` widths as `Nat`.
- The compiled regular expression of `NumberStyle::Pattern` (the external
  `regex` crate collaborator) is modelled as its matching predicate
  `String → Bool`; `Regex::is_match` is an unanchored containment match,
  so e.g. the regex `^#` corresponds to the predicate "starts with `#`".
- Line-based I/O is modelled by lists of strings: the reader yields the
  input lines (terminators stripped), and `number_lines` returns the list
  of output lines (each of which the program terminates with a newline).
- `std::fmt` integer rendering is modelled by `toString : Int → String`
  (decimal, leading `-` for negatives); the `{:>0width$}` format used for
  `RightZero` is sign-aware zero padding: zeros are inserted between the
  sign and the digits, and the 0 flag overrides the fill/alignment.
-/

namespace Nl

/-- Numbering style of a section: `a` number all lines, `t` number
non-empty lines, `n` number none, `pBRE` number lines matching the regex.
The compiled regex is modelled by its matching predicate. -/
inductive NumberStyle where
  | All : NumberStyle
  | NonEmpty : NumberStyle
  | None : NumberStyle
  | Pattern : (String → Bool) → NumberStyle

/-- Line-number justification: `ln` left, `rn` right (default), `rz`
right with leading zeros. -/
inductive NumberFormat where
  | Left : NumberFormat
  | Right : NumberFormat
  | RightZero : NumberFormat
deriving DecidableEq

/-- The three sections of an input stream. -/
inductive Section where
  | Header : Section
  | Body : Section
  | Footer : Section
deriving DecidableEq

/-- Configuration produced by the (excluded) argument parser, consumed
read-only by the numbering core. The `file` field of the Rust struct is
input selection only and plays no role in the numbering logic. -/
structure Config where
  header_style : NumberStyle
  body_style : NumberStyle
  footer_style : NumberStyle
  number_format : NumberFormat
  number_width : Nat
  separator : String
  start_number : Int
  increment : Int
  join_blank : Nat
  no_renumber : Bool
  section_delimiter : Char × Char

/-- Default configuration (`impl Default for Config`). -/
def Config.default : Config where
  header_style := NumberStyle.None
  body_style := NumberStyle.NonEmpty
  footer_style := NumberStyle.None
  number_format := NumberFormat.Right
  number_width := 6
  separator := "\t"
  start_number := 1
  increment := 1
  join_blank := 1
  no_renumber := false
  section_delimiter := ('\\', ':')

/-- Rust `c.to_string().repeat(n)` / `" ".repeat(width)`: the string of
`n` copies of the character `c`. -/
def repeatChar (c : Char) (n : Nat) : String :=
  String.mk (List.replicate n c)

/-- Embedding of `format_number(num, width, format)`. `Left` is
`format!("{:<width$}", num)`, `Right` is `format!("{:>width$}", num)`,
`RightZero` is `format!("{:>0width$}", num)`, whose `0` flag overrides the
alignment and pads sign-aware: the zeros go between the `-` sign and the
digits, the sign counting toward the width. -/
def format_number (num : Int) (width : Nat) (format : NumberFormat) : String :=
  let s := toString num
  match format with
  | NumberFormat.Left => s ++ repeatChar ' ' (width - s.length)
  | NumberFormat.Right => repeatChar ' ' (width - s.length) ++ s
  | NumberFormat.RightZero =>
      if num < 0 then "-" ++ repeatChar '0' (width - s.length) ++ toString (-num)
      else repeatChar '0' (width - s.length) ++ s

/-- Embedding of `should_number(line, style)`. -/
def should_number (line : String) (style : NumberStyle) : Bool :=
  match style with
  | NumberStyle.All => true
  | NumberStyle.NonEmpty => !line.isEmpty
  | NumberStyle.None => false
  | NumberStyle.Pattern re => re line

/-- Embedding of `section_delimiters(delim)`: builds
(header_delim, body_delim, footer_delim) = (base×3, base×2, base×1) from
the two-character delimiter base. -/
def section_delimiters (delim : Char × Char) : String × String × String :=
  let pair := String.mk [delim.1, delim.2]
  (pair ++ pair ++ pair, pair ++ pair, pair)

/-- Mutable processing state of `number_lines`, threaded explicitly. -/
structure ProcState where
  line_number : Int
  current_section : Section
  blank_count : Nat
deriving DecidableEq

/-- Style selected for a section (`match current_section` in
`number_lines`). -/
def styleOf (config : Config) (sec : Section) : NumberStyle :=
  match sec with
  | Section.Header => config.header_style
  | Section.Body => config.body_style
  | Section.Footer => config.footer_style

/-- Bool test `matches!(style, NumberStyle::All)`. -/
def isAll (style : NumberStyle) : Bool :=
  match style with
  | NumberStyle.All => true
  | _ => false

/-- The `let do_number = if line.is_empty() { ... } else { ... }` block of
`number_lines`: given the active style and current `blank_count`, returns
the numbering decision together with the updated `blank_count`. -/
def blankDecision (config : Config) (style : NumberStyle) (blank_count : Nat)
    (line : String) : Bool × Nat :=
  if line.isEmpty then
    let bc := blank_count + 1
    if isAll style && decide (config.join_blank ≤ bc) then (true, 0)
    else (false, bc)
  else
    (should_number line style, 0)

/-- One iteration of the `for line in buf.lines()` loop of `number_lines`:
consumes one input line, returns the updated state and the output line
written for it (delimiter lines produce an empty output line). -/
def processLine (config : Config) (s : ProcState) (line : String) :
    ProcState × String :=
  let d := section_delimiters config.section_delimiter
  let header_delim := d.1
  let body_delim := d.2.1
  let footer_delim := d.2.2
  if line == header_delim then
    ({ current_section := Section.Header,
       line_number := if config.no_renumber then s.line_number else config.start_number,
       blank_count := 0 }, "")
  else if line == body_delim then
    ({ current_section := Section.Body,
       line_number := if config.no_renumber then s.line_number else config.start_number,
       blank_count := 0 }, "")
  else if line == footer_delim then
    ({ current_section := Section.Footer,
       line_number := if config.no_renumber then s.line_number else config.start_number,
       blank_count := 0 }, "")
  else
    let style := styleOf config s.current_section
    let dec := blankDecision config style s.blank_count line
    if dec.1 then
      ({ s with line_number := s.line_number + config.increment,
                blank_count := dec.2 },
       format_number s.line_number config.number_width config.number_format ++
         config.separator ++ line)
    else
      ({ s with blank_count := dec.2 },
       repeatChar ' ' config.number_width ++ line)

/-- The whole `for` loop of `number_lines` over a list of input lines:
returns the final state and the list of output lines, in order. -/
def processLines (config : Config) (s : ProcState) :
    List String → ProcState × List String
  | [] => (s, [])
  | l :: ls =>
      let r := processLine config s l
      let rest := processLines config r.1 ls
      (rest.1, r.2 :: rest.2)

/-- Initial processing state of `number_lines`: counter at the configured
start, section `Body`, no pending blanks. -/
def initState (config : Config) : ProcState where
  line_number := config.start_number
  current_section := Section.Body
  blank_count := 0

/-- Embedding of `number_lines(reader, config)`: the output lines produced
for the given input lines. -/
def number_lines (config : Config) (lines : List String) : List String :=
  (processLines config (initState config) lines).2

/-- Observation: is this input line one of the three delimiter strings
(and hence consumed by a section transition)? -/
def isDelimiter (config : Config) (line : String) : Bool :=
  let d := section_delimiters config.section_delimiter
  line == d.1 || line == d.2.1 || line == d.2.2

/-- Observation: does this input line receive a number in state `s`?
Delimiter lines never do; otherwise the decision is the one `processLine`
makes. -/
def lineNumbered (config : Config) (s : ProcState) (line : String) : Bool :=
  if isDelimiter config line then false
  else (blankDecision config (styleOf config s.current_section) s.blank_count line).1

/-- Observation: the numbers assigned to the numbered lines of the input,
in input order, when processing starts in state `s`. -/
def assignedNumbers (config : Config) (s : ProcState) : List String → List Int
  | [] => []
  | l :: ls =>
      let rest := assignedNumbers config (processLine config s l).1 ls
      if lineNumbered config s l then s.line_number :: rest else rest

/-- I/O error kinds distinguished by `main`: it only tests whether the
kind is `BrokenPipe`; all other read or write error kinds behave alike,
two representatives are listed. -/
inductive ErrorKind where
  | brokenPipe : ErrorKind
  | notFound : ErrorKind
  | other : ErrorKind
deriving DecidableEq

/-- Observable outcome of `main`'s error dispatch: the process exit code
and whether a diagnostic is printed on standard error. -/
structure ExitBehavior where
  exit_code : Nat
  prints_error : Bool
deriving DecidableEq

/-- Embedding of the tail of `main`: given the `io::Result` of
`number_lines`, an error whose kind is not `BrokenPipe` is reported on
standard error and the process exits with status 1; otherwise the process
ends normally (exit 0, nothing printed). -/
def handle_result (r : Except ErrorKind Unit) : ExitBehavior :=
  match r with
  | Except.error e =>
      if e ≠ ErrorKind.brokenPipe then { exit_code := 1, prints_error := true }
      else { exit_code := 0, prints_error := false }
  | Except.ok _ => { exit_code := 0, prints_error := false }

/-- Configuration for the `-b p^#` scenario: body style is the pattern
style whose compiled regex `^#` matches exactly the lines starting with
`#`. -/
def cfgHash : Config :=
  { Config.default with
      body_style := NumberStyle.Pattern (fun t => t.data.head? == some '#') }

/-- Configuration whose body style is a pattern whose regex matches every
line, including the empty line (e.g. the empty regex, or `x?`). -/
def cfgEmptyMatch : Config :=
  { Config.default with body_style := NumberStyle.Pattern (fun _ => true) }

/-- Configuration exercising blank-line grouping: body style `All`,
grouping factor 3. -/
def cfgA : Config :=
  { Config.default with body_style := NumberStyle.All, join_blank := 3 }

theorem repeatChar_length (c : Char) (n : Nat) : (repeatChar c n).length = n := by
  simp [repeatChar, String.length_mk]

theorem toString_int_neg_length (n : Int) (h : n < 0) :
    (toString n).length = (toString (-n)).length + 1 := by
  cases n with
  | ofNat m => exact absurd h (Int.not_lt.mpr (Int.ofNat_nonneg m))
  | negSucc m =>
      have h1 : toString (Int.negSucc m) = "-" ++ toString (Int.ofNat (m + 1)) := rfl
      have h2 : -Int.negSucc m = Int.ofNat (m + 1) := rfl
      rw [h1, h2, String.length_append]
      have h3 : ("-" : String).length = 1 := rfl
      omega

theorem format_number_length (n : Int) (w : Nat) (f : NumberFormat) :
    (format_number n w f).length = max w (toString n).length := by
  cases f with
  | Left =>
      simp [format_number, String.length_append, repeatChar_length]
      omega
  | Right =>
      simp [format_number, String.length_append, repeatChar_length]
      omega
  | RightZero =>
      by_cases h : n < 0
      · have hlen := toString_int_neg_length n h
        have h3 : ("-" : String).length = 1 := rfl
        simp [format_number, h, String.length_append, repeatChar_length]
        omega
      · simp [format_number, h, String.length_append, repeatChar_length]
        omega

theorem delim_length_header (d : Char × Char) : (section_delimiters d).1.length = 6 := by
  simp [section_delimiters, String.length_append, String.length_mk]

theorem delim_length_body (d : Char × Char) : (section_delimiters d).2.1.length = 4 := by
  simp [section_delimiters, String.length_append, String.length_mk]

theorem delim_length_footer (d : Char × Char) : (section_delimiters d).2.2.length = 2 := by
  simp [section_delimiters, String.length_mk]

theorem ne_of_length_ne {a b : String} (h : a.length ≠ b.length) : a ≠ b :=
  fun e => h (congrArg String.length e)

theorem header_ne_body (d : Char × Char) :
    (section_delimiters d).1 ≠ (section_delimiters d).2.1 :=
  ne_of_length_ne (by rw [delim_length_header, delim_length_body]; omega)

theorem header_ne_footer (d : Char × Char) :
    (section_delimiters d).1 ≠ (section_delimiters d).2.2 :=
  ne_of_length_ne (by rw [delim_length_header, delim_length_footer]; omega)

theorem body_ne_footer (d : Char × Char) :
    (section_delimiters d).2.1 ≠ (section_delimiters d).2.2 :=
  ne_of_length_ne (by rw [delim_length_body, delim_length_footer]; omega)

theorem empty_not_delimiter (config : Config) : isDelimiter config "" = false := by
  have h1 : ("" : String) ≠ (section_delimiters config.section_delimiter).1 :=
    ne_of_length_ne (by rw [delim_length_header]; simp [String.length_empty])
  have h2 : ("" : String) ≠ (section_delimiters config.section_delimiter).2.1 :=
    ne_of_length_ne (by rw [delim_length_body]; simp [String.length_empty])
  have h3 : ("" : String) ≠ (section_delimiters config.section_delimiter).2.2 :=
    ne_of_length_ne (by rw [delim_length_footer]; simp [String.length_empty])
  simp [isDelimiter, h1, h2, h3]

theorem processLine_not_delim (config : Config) (s : ProcState) (line : String)
    (h : isDelimiter config line = false) :
    processLine config s line =
      if (blankDecision config (styleOf config s.current_section) s.blank_count line).1 then
        ({ s with line_number := s.line_number + config.increment,
                  blank_count :=
                    (blankDecision config (styleOf config s.current_section)
                      s.blank_count line).2 },
         format_number s.line_number config.number_width config.number_format ++
           config.separator ++ line)
      else
        ({ s with blank_count :=
             (blankDecision config (styleOf config s.current_section)
               s.blank_count line).2 },
         repeatChar ' ' config.number_width ++ line) := by
  simp only [isDelimiter, Bool.or_eq_false_iff] at h
  obtain ⟨⟨h1, h2⟩, h3⟩ := h
  simp only [processLine, h1, h2, h3, Bool.false_eq_true, if_false]

theorem processLine_fst_line_number (config : Config) (s : ProcState) (line : String) :
    (processLine config s line).1.line_number =
      if isDelimiter config line = true then
        (if config.no_renumber then s.line_number else config.start_number)
      else if lineNumbered config s line = true then s.line_number + config.increment
      else s.line_number := by
  by_cases e1 : (line == (section_delimiters config.section_delimiter).1) = true
  · simp [processLine, isDelimiter, e1]
  · by_cases e2 : (line == (section_delimiters config.section_delimiter).2.1) = true
    · simp [processLine, isDelimiter, e1, e2]
    · by_cases e3 : (line == (section_delimiters config.section_delimiter).2.2) = true
      · simp [processLine, isDelimiter, e1, e2, e3]
      · simp only [Bool.not_eq_true] at e1 e2 e3
        simp only [processLine, lineNumbered, isDelimiter, e1, e2, e3,
          Bool.or_self, Bool.false_eq_true, if_false]
        split <;> simp

/-- C5: for every integer and positive width, `format_number` returns a
string of length `max width natural-length` (so ≥ width, growing to fit
with no truncation), `Left` pads with trailing spaces, `Right` with
leading spaces, and on 7 with width 4 the three formats give "0007",
"   7" and "7   ". -/
theorem C5_number_formatter (n : Int) (w : Nat) :
    (∀ f : NumberFormat, w ≤ (format_number n w f).length ∧
        (format_number n w f).length = max w (toString n).length) ∧
    format_number n w NumberFormat.Left =
      toString n ++ repeatChar ' ' (w - (toString n).length) ∧
    format_number n w NumberFormat.Right =
      repeatChar ' ' (w - (toString n).length) ++ toString n ∧
    format_number 7 4 NumberFormat.RightZero = "0007" ∧
    format_number 7 4 NumberFormat.Right = "   7" ∧
    format_number 7 4 NumberFormat.Left = "7   " := by
  refine ⟨fun f => ⟨?_, format_number_length n w f⟩, rfl, rfl, by decide, by decide, by decide⟩
  rw [format_number_length]
  omega

/-- C10: for a negative number whose decimal text (sign included) fits the
width, `RightZero` places the minus sign first, then the padding zeros,
then the digits, and the result has length exactly the width; in
particular `-7` at width 4 renders as "-007". -/
theorem C10_rightzero_negative (n : Int) (w : Nat) (hneg : n < 0)
    (hfit : (toString n).length ≤ w) :
    format_number n w NumberFormat.RightZero =
      "-" ++ repeatChar '0' (w - (toString n).length) ++ toString (-n) ∧
    (format_number n w NumberFormat.RightZero).length = w ∧
    format_number (-7) 4 NumberFormat.RightZero = "-007" := by
  refine ⟨by simp [format_number, hneg], ?_, by decide⟩
  rw [format_number_length]
  omega

/-- C10 witness: the theorem instantiated at n = -7, width 4. -/
theorem C10_rightzero_negative_witness :
    (-7 : Int) < 0 ∧ (toString (-7 : Int)).length ≤ 4 ∧
    format_number (-7) 4 NumberFormat.RightZero =
      "-" ++ repeatChar '0' (4 - (toString (-7 : Int)).length) ++ toString (-(-7 : Int)) :=
  ⟨by decide, by decide, (C10_rightzero_negative (-7) 4 (by decide) (by decide)).1⟩

/-- C8: for every two-character delimiter base the three derived delimiter
strings (header = base×3, body = base×2, footer = base×1) are pairwise
distinct, so exact-string equality cannot classify one delimiter line as
another and the comparison order is irrelevant. -/
theorem C8_delimiters_distinct (d : Char × Char) :
    (section_delimiters d).1 ≠ (section_delimiters d).2.1 ∧
    (section_delimiters d).1 ≠ (section_delimiters d).2.2 ∧
    (section_delimiters d).2.1 ≠ (section_delimiters d).2.2 :=
  ⟨header_ne_body d, header_ne_footer d, body_ne_footer d⟩

/-- C9: a broken-pipe failure of line processing ends the process
successfully with no message; any other I/O error prints a diagnostic on
standard error and exits with status 1. -/
theorem C9_error_dispatch (e : ErrorKind) (he : e ≠ ErrorKind.brokenPipe) :
    handle_result (Except.error ErrorKind.brokenPipe) =
      { exit_code := 0, prints_error := false } ∧
    handle_result (Except.error e) = { exit_code := 1, prints_error := true } ∧
    handle_result (Except.ok ()) = { exit_code := 0, prints_error := false } :=
  ⟨rfl, by simp [handle_result, he], rfl⟩

/-- C9 witness: the theorem instantiated at the not-found error kind. -/
theorem C9_error_dispatch_witness :
    ErrorKind.notFound ≠ ErrorKind.brokenPipe ∧
    handle_result (Except.error ErrorKind.notFound) =
      { exit_code := 1, prints_error := true } :=
  ⟨by decide, (C9_error_dispatch ErrorKind.notFound (by decide)).2.1⟩

/-- C7: the default configuration numbers "hello" and "world" as 1 and 2
and leaves the intervening empty line unnumbered with the six-space
prefix. -/
theorem C7_default_scenario :
    number_lines Config.default ["hello", "", "world"] =
      ["     1\thello", "      ", "     2\tworld"] := by decide

/-- C2: a line equal to one of the three derived delimiter strings is
consumed by a section transition: the output for it is a single blank
line, the current section switches to the corresponding section,
`blank_count` resets to 0, and `line_number` resets to the configured
start exactly when reset suppression is off (with suppression the counter
is unchanged). In particular the line is never numbered. -/
theorem C2_section_transition (config : Config) (s : ProcState) :
    processLine config s (section_delimiters config.section_delimiter).1 =
      ({ line_number := if config.no_renumber then s.line_number else config.start_number,
         current_section := Section.Header, blank_count := 0 }, "") ∧
    processLine config s (section_delimiters config.section_delimiter).2.1 =
      ({ line_number := if config.no_renumber then s.line_number else config.start_number,
         current_section := Section.Body, blank_count := 0 }, "") ∧
    processLine config s (section_delimiters config.section_delimiter).2.2 =
      ({ line_number := if config.no_renumber then s.line_number else config.start_number,
         current_section := Section.Footer, blank_count := 0 }, "") := by
  have hbh : ((section_delimiters config.section_delimiter).2.1 ==
      (section_delimiters config.section_delimiter).1) = false :=
    beq_eq_false_iff_ne.mpr (header_ne_body config.section_delimiter).symm
  have hfh : ((section_delimiters config.section_delimiter).2.2 ==
      (section_delimiters config.section_delimiter).1) = false :=
    beq_eq_false_iff_ne.mpr (header_ne_footer config.section_delimiter).symm
  have hfb : ((section_delimiters config.section_delimiter).2.2 ==
      (section_delimiters config.section_delimiter).2.1) = false :=
    beq_eq_false_iff_ne.mpr (body_ne_footer config.section_delimiter).symm
  refine ⟨?_, ?_, ?_⟩
  · simp [processLine]
  · simp [processLine, hbh]
  · simp [processLine, hfh, hfb]

/-- C6: a non-delimiter line that is numbered is emitted as the rendered
number, then the separator, then the line text; an unnumbered one is
emitted as exactly width spaces followed directly by the text, with no
separator. -/
theorem C6_output_shape (config : Config) (s : ProcState) (line : String)
    (hnd : isDelimiter config line = false) :
    (processLine config s line).2 =
      if lineNumbered config s line then
        format_number s.line_number config.number_width config.number_format ++
          config.separator ++ line
      else repeatChar ' ' config.number_width ++ line := by
  rw [processLine_not_delim config s line hnd]
  simp only [lineNumbered, hnd, Bool.false_eq_true, if_false]
  by_cases hb : (blankDecision config (styleOf config s.current_section)
      s.blank_count line).1 = true
  · simp [hb]
  · simp only [Bool.not_eq_true] at hb
    simp [hb]

/-- C6 witness: the theorem instantiated at the default configuration,
the initial state, and the line "hello", which is numbered 1. -/
theorem C6_output_shape_witness :
    isDelimiter Config.default "hello" = false ∧
    (processLine Config.default (initState Config.default) "hello").2 =
      (if lineNumbered Config.default (initState Config.default) "hello" then
        format_number (initState Config.default).line_number
            Config.default.number_width Config.default.number_format ++
          Config.default.separator ++ "hello"
      else repeatChar ' ' Config.default.number_width ++ "hello") :=
  ⟨by decide,
    C6_output_shape Config.default (initState Config.default) "hello" (by decide)⟩

theorem processLines_nil (config : Config) (s : ProcState) :
    processLines config s [] = (s, []) := rfl

theorem processLines_cons (config : Config) (s : ProcState) (l : String)
    (ls : List String) :
    processLines config s (l :: ls) =
      ((processLines config (processLine config s l).1 ls).1,
       (processLine config s l).2 ::
         (processLines config (processLine config s l).1 ls).2) := rfl

theorem empty_isEmpty : ("" : String).isEmpty = true := by decide

theorem blanks_run (config : Config) (j : Nat) :
    ∀ (s : ProcState), s.blank_count + (j + 1) = config.join_blank →
      styleOf config s.current_section = NumberStyle.All →
      (processLines config s (List.replicate (j + 1) "")).2 =
        List.replicate j (repeatChar ' ' config.number_width ++ "") ++
          [format_number s.line_number config.number_width config.number_format ++
            config.separator ++ ""] := by
  induction j with
  | zero =>
      intro s hsum hAll
      have hP : config.join_blank ≤ s.blank_count + 1 := by omega
      have hdec : blankDecision config (styleOf config s.current_section)
          s.blank_count "" = (true, 0) := by
        rw [hAll]
        simp [blankDecision, isAll, empty_isEmpty, hP]
      have hstep := processLine_not_delim config s "" (empty_not_delimiter config)
      rw [hdec] at hstep
      simp only [if_true] at hstep
      simp [List.replicate_one, processLines_cons, processLines_nil, hstep]
  | succ j ih =>
      intro s hsum hAll
      have hP : ¬ config.join_blank ≤ s.blank_count + 1 := by omega
      have hdec : blankDecision config (styleOf config s.current_section)
          s.blank_count "" = (false, s.blank_count + 1) := by
        rw [hAll]
        simp [blankDecision, isAll, empty_isEmpty, hP]
      have hstep := processLine_not_delim config s "" (empty_not_delimiter config)
      rw [hdec] at hstep
      simp only [Bool.false_eq_true, if_false] at hstep
      have hih : (processLines config { s with blank_count := s.blank_count + 1 }
            (List.replicate (j + 1) "")).2 =
          List.replicate j (repeatChar ' ' config.number_width ++ "") ++
            [format_number s.line_number config.number_width config.number_format ++
              config.separator ++ ""] :=
        ih { s with blank_count := s.blank_count + 1 } (by simp; omega) hAll
      rw [List.replicate_succ, processLines_cons, hstep]
      dsimp only
      rw [hih]
      simp [List.replicate_succ]

/-- C1: under a configuration with grouping factor N, every blank line
increments `blank_count`; under style `All` the blank line is numbered
(and `blank_count` reset to 0) exactly when the count reaches N, so a run
of N consecutive blank lines starting with `blank_count` 0 has exactly its
N-th line numbered and the rest carry only the width-wide blank prefix;
under any style other than `All` a blank line is never numbered, whatever
the grouping factor. -/
theorem C1_blank_grouping (config : Config) (s : ProcState)
    (hN : 1 ≤ config.join_blank)
    (hAll : styleOf config s.current_section = NumberStyle.All)
    (hbc : s.blank_count = 0) :
    (∀ (cfg : Config) (bc : Nat),
        blankDecision cfg NumberStyle.All bc "" =
          if cfg.join_blank ≤ bc + 1 then (true, 0) else (false, bc + 1)) ∧
    (∀ (cfg : Config) (style : NumberStyle) (bc : Nat) (line : String),
        isAll style = false → line.isEmpty = true →
        (blankDecision cfg style bc line).1 = false) ∧
    (processLines config s (List.replicate config.join_blank "")).2 =
      List.replicate (config.join_blank - 1)
          (repeatChar ' ' config.number_width ++ "") ++
        [format_number s.line_number config.number_width config.number_format ++
          config.separator ++ ""] := by
  refine ⟨?_, ?_, ?_⟩
  · intro cfg bc
    by_cases hc : cfg.join_blank ≤ bc + 1
    · simp [blankDecision, isAll, empty_isEmpty, hc]
    · simp [blankDecision, isAll, empty_isEmpty, hc]
  · intro cfg style bc line hs hline
    simp [blankDecision, hline, hs]
  · obtain ⟨j, hj⟩ : ∃ j, config.join_blank = j + 1 :=
      ⟨config.join_blank - 1, by omega⟩
    have hrun := blanks_run config j s (by omega) hAll
    rw [hj]
    simpa using hrun

/-- C1 witness: the theorem instantiated at the body-style-All
configuration with grouping factor 3 and the initial state. -/
theorem C1_blank_grouping_witness :
    1 ≤ cfgA.join_blank ∧
    styleOf cfgA (initState cfgA).current_section = NumberStyle.All ∧
    (initState cfgA).blank_count = 0 ∧
    (processLines cfgA (initState cfgA) (List.replicate cfgA.join_blank "")).2 =
      List.replicate (cfgA.join_blank - 1) (repeatChar ' ' cfgA.number_width ++ "") ++
        [format_number (initState cfgA).line_number cfgA.number_width
            cfgA.number_format ++ cfgA.separator ++ ""] :=
  ⟨by decide, rfl, rfl,
    (C1_blank_grouping cfgA (initState cfgA) (by decide) rfl rfl).2.2⟩

theorem assignedNumbers_arith (config : Config) (lines : List String) :
    ∀ (s : ProcState), (∀ l ∈ lines, isDelimiter config l = false) →
      assignedNumbers config s lines =
        (List.range (assignedNumbers config s lines).length).map
          (fun i : Nat => s.line_number + config.increment * (i : Int)) := by
  induction lines with
  | nil => intro s _; simp [assignedNumbers]
  | cons l ls ih =>
      intro s hnd
      have hl : isDelimiter config l = false := hnd l (List.mem_cons_self l ls)
      have hls : ∀ x ∈ ls, isDelimiter config x = false :=
        fun x hx => hnd x (List.mem_cons_of_mem l hx)
      by_cases hnum : lineNumbered config s l = true
      · have hln : (processLine config s l).1.line_number =
            s.line_number + config.increment := by
          rw [processLine_fst_line_number]
          simp [hl, hnum]
        have hstep : assignedNumbers config s (l :: ls) =
            s.line_number :: assignedNumbers config (processLine config s l).1 ls := by
          simp [assignedNumbers, hnum]
        rw [hstep, ih (processLine config s l).1 hls, hln]
        simp only [List.length_cons, List.length_map, List.length_range]
        rw [List.range_succ_eq_map, List.map_cons, List.map_map]
        congr 1
        · simp
        · apply List.map_congr_left
          intro i _
          simp only [Function.comp_apply]
          push_cast
          ring
      · have hln : (processLine config s l).1.line_number = s.line_number := by
          rw [processLine_fst_line_number]
          simp [hl, hnum]
        simp only [Bool.not_eq_true] at hnum
        have hstep : assignedNumbers config s (l :: ls) =
            assignedNumbers config (processLine config s l).1 ls := by
          simp [assignedNumbers, hnum]
        rw [hstep, ih (processLine config s l).1 hls, hln]
        simp [List.length_map, List.length_range]

/-- C3: the counter only ever changes by being advanced by the increment
after numbering a line, or by being reset to the start on a delimiter line
when reset is not suppressed; consequently, on a delimiter-free stretch
beginning with the counter at the configured start, the numbers assigned
to the numbered lines are exactly start, start+increment, start+2·increment,
… in input order. -/
theorem C3_counter_discipline (config : Config) (s : ProcState) (lines : List String)
    (hnd : ∀ l ∈ lines, isDelimiter config l = false)
    (hs : s.line_number = config.start_number) :
    (∀ (t : ProcState) (line : String),
        (processLine config t line).1.line_number =
          if isDelimiter config line = true then
            (if config.no_renumber then t.line_number else config.start_number)
          else if lineNumbered config t line = true then
            t.line_number + config.increment
          else t.line_number) ∧
    assignedNumbers config s lines =
      (List.range (assignedNumbers config s lines).length).map
        (fun i : Nat => config.start_number + config.increment * (i : Int)) := by
  refine ⟨fun t line => processLine_fst_line_number config t line, ?_⟩
  have h := assignedNumbers_arith config lines s hnd
  rw [hs] at h
  exact h

/-- C3 witness: the theorem instantiated at the default configuration and
the delimiter-free input ["hello", "", "world"], whose assigned numbers
are [1, 2]. -/
theorem C3_counter_discipline_witness :
    (∀ l ∈ ["hello", "", "world"], isDelimiter Config.default l = false) ∧
    (initState Config.default).line_number = Config.default.start_number ∧
    assignedNumbers Config.default (initState Config.default)
      ["hello", "", "world"] = [1, 2] :=
  ⟨by decide, rfl, by
    have h := (C3_counter_discipline Config.default (initState Config.default)
      ["hello", "", "world"] (by decide) rfl).2
    rw [h]
    decide⟩

/-- C4 (amended): in a section whose style is Pattern, a non-delimiter
line that is not blank is numbered exactly when the regex matches it; and
with style p^# the lines "#one" and "#three" are numbered 1 and 2 while
"two" is left unnumbered with blank padding. -/
theorem C4_pattern_style (config : Config) (s : ProcState) (line : String)
    (re : String → Bool)
    (hnd : isDelimiter config line = false)
    (hne : line.isEmpty = false)
    (hstyle : styleOf config s.current_section = NumberStyle.Pattern re) :
    lineNumbered config s line = re line ∧
    number_lines cfgHash ["#one", "two", "#three"] =
      ["     1\t#one", "      two", "     2\t#three"] := by
  constructor
  · simp [lineNumbered, hnd, blankDecision, hne, hstyle, should_number]
  · decide

/-- C4 witness: the theorem instantiated at the p^# configuration and the
line "#one", which the pattern matches. -/
theorem C4_pattern_style_witness :
    isDelimiter cfgHash "#one" = false ∧ ("#one" : String).isEmpty = false ∧
    styleOf cfgHash (initState cfgHash).current_section =
      NumberStyle.Pattern (fun t => t.data.head? == some '#') ∧
    lineNumbered cfgHash (initState cfgHash) "#one" =
      (fun t : String => t.data.head? == some '#') "#one" :=
  ⟨by decide, by decide, rfl,
    (C4_pattern_style cfgHash (initState cfgHash) "#one"
      (fun t => t.data.head? == some '#') (by decide) (by decide) rfl).1⟩

/-- C4 counterexample: with a pattern whose regex matches every line
(including the empty line, e.g. the empty regex), the empty line is a
non-delimiter line in a Pattern-style section whose regex matches, yet it
is not numbered: the output is the six-space blank prefix. The claim's
"numbered iff the regex matches" therefore fails on blank lines. -/
theorem C4_pattern_style_counterexample :
    styleOf cfgEmptyMatch (initState cfgEmptyMatch).current_section =
      NumberStyle.Pattern (fun _ => true) ∧
    (fun _ : String => true) "" = true ∧
    isDelimiter cfgEmptyMatch "" = false ∧
    lineNumbered cfgEmptyMatch (initState cfgEmptyMatch) "" = false ∧
    number_lines cfgEmptyMatch [""] = ["      "] :=
  ⟨rfl, rfl, by decide, by decide, by decide⟩

end Nl
